import Mathlib

/-!
Verification of the annotation-normalization core of `openapi_spec_models`
(`src/openapi_spec_models/utils.py`): the registry tables
`wrapper_type_set` and `instantiable_type_mapping`, and the three functions
`unwrap_annotation`, `get_origin_or_inner_type` and `is_non_string_sequence`.

The embedding models Python type descriptors as a small AST (`Annot`) over an
enumeration of the runtime objects that can occur as generic origins, table
keys, or `issubclass` arguments (`PyToken`).  Exceptions (`TypeError` from
`issubclass`, `ValueError` from tuple unpacking) are modelled with `Except`.
The registry tables are threaded through the functions as explicit state
(`Registry`), so that the frame property (the code never mutates them) is a
theorem rather than an aside; the plain source-named functions are the
stateful ones applied to the load-time registry `initRegistry`.
-/

namespace OpenapiSpec

/-- The Python runtime objects relevant to `utils.py`: the four wrapper
special forms, the `typing` generic aliases and `collections.abc` classes
that key `instantiable_type_mapping`, the concrete builtin classes, and an
opaque `custom` class for everything else. -/
inductive PyToken where
  | annotated
  | required
  | notRequired
  | readOnly
  | tAbstractSet
  | tDefaultDict
  | tDeque
  | tDict
  | tFrozenSet
  | tList
  | tMapping
  | tMutableMapping
  | tMutableSequence
  | tMutableSet
  | tSequence
  | tSet
  | tTuple
  | abcMapping
  | abcMutableMapping
  | abcMutableSequence
  | abcMutableSet
  | abcSequence
  | abcSet
  | int
  | boolC
  | float
  | str
  | bytes
  | list
  | dict
  | set
  | frozenset
  | tuple
  | deque
  | defaultdict
  | custom (n : String)
deriving DecidableEq

/-- A Python type annotation / descriptor.
`py t` is a plain object with no generic origin (e.g. the class `int`);
`lit s` is a non-type object used as `Annotated` metadata;
`app o args` is a subscripted generic whose `typing.get_origin` is `o` and
whose `typing.get_args` is `args` (e.g. `List[int]` is `app .list [py .int]`,
`Annotated[int, "m"]` is `app .annotated [py .int, lit "m"]`). -/
inductive Annot where
  | py (t : PyToken)
  | lit (s : String)
  | app (origin : PyToken) (args : List Annot)

/-- Exceptions that the modelled code can raise: `TypeError` (e.g.
`issubclass` on a non-class, unpacking `None`) and `ValueError`
(unpacking a too-short tuple). -/
inductive PyErr where
  | typeError
  | valueError
deriving DecidableEq

/-- `typing.get_origin`: the stored origin of a subscripted generic, `none`
for plain objects (Python `None`). -/
def get_origin : Annot → Option PyToken
  | .app o _ => some o
  | _ => none

/-- `typing.get_args`: the stored argument tuple, empty for non-generics. -/
def get_args : Annot → List Annot
  | .app _ args => args
  | _ => []

/-- `inspect.isclass` on a `PyToken`: the concrete builtin classes and the
`collections.abc` ABCs are classes; `typing` special forms (`Annotated`,
`Required`, ...) and `typing` generic aliases (`typing.List`, ...) are not. -/
def isClassTok : PyToken → Bool
  | .annotated | .required | .notRequired | .readOnly => false
  | .tAbstractSet | .tDefaultDict | .tDeque | .tDict | .tFrozenSet | .tList
  | .tMapping | .tMutableMapping | .tMutableSequence | .tMutableSet
  | .tSequence | .tSet | .tTuple => false
  | _ => true

/-- `inspect.isclass` on an annotation: true only for a plain class object.
Subscripted generics such as `list[int]` are not classes (Python 3.11+). -/
def isclass : Annot → Bool
  | .py t => isClassTok t
  | _ => false

/-- The runtime delegate of a token in `issubclass` second-argument
position: deprecated `typing` aliases delegate the subclass check to their
runtime origin (`typing.List` to `list`, `typing.Sequence` to
`collections.abc.Sequence`, ...); everything else stands for itself. -/
def typingToRuntime : PyToken → PyToken
  | .tAbstractSet => .abcSet
  | .tDefaultDict => .defaultdict
  | .tDeque => .deque
  | .tDict => .dict
  | .tFrozenSet => .frozenset
  | .tList => .list
  | .tMapping => .abcMapping
  | .tMutableMapping => .abcMutableMapping
  | .tMutableSequence => .abcMutableSequence
  | .tMutableSet => .abcMutableSet
  | .tSequence => .abcSequence
  | .tSet => .set
  | .tTuple => .tuple
  | t => t

/-- The proper superclasses (within `PyToken`, including ABC registration)
of each class token, transitively closed: `bool <: int`,
`list/tuple/str/bytes/deque <: abc.Sequence`, `set/frozenset <: abc.Set`,
`dict/defaultdict <: abc.Mapping`, and the `Mutable* <: *` ABC hierarchy. -/
def supertypes : PyToken → List PyToken
  | .boolC => [.int]
  | .list => [.abcMutableSequence, .abcSequence]
  | .tuple => [.abcSequence]
  | .str => [.abcSequence]
  | .bytes => [.abcSequence]
  | .deque => [.abcMutableSequence, .abcSequence]
  | .set => [.abcMutableSet, .abcSet]
  | .frozenset => [.abcSet]
  | .dict => [.abcMutableMapping, .abcMapping]
  | .defaultdict => [.dict, .abcMutableMapping, .abcMapping]
  | .abcMutableSequence => [.abcSequence]
  | .abcMutableSet => [.abcSet]
  | .abcMutableMapping => [.abcMapping]
  | _ => []

/-- `issubclass(a, b)` for a class token `a` (reflexivity plus the
`supertypes` relation), with `typing` aliases in second position delegating
to their runtime origin. -/
def issub (a b : PyToken) : Bool :=
  let b := typingToRuntime b
  a = b || (supertypes a).contains b

/-- `issubclass(a, classinfo)` with a tuple of classes: raises `TypeError`
when the first argument is not a class, otherwise true iff `a` is a subclass
of some member of the tuple. -/
def issubclassTuple (a : Annot) (classinfo : List PyToken) : Except PyErr Bool :=
  match a with
  | .py t =>
    if isClassTok t then .ok (classinfo.any (fun c => issub t c))
    else .error .typeError
  | _ => .error .typeError

/-- Source: `wrapper_type_set = {Annotated, Required, NotRequired, ReadOnly}`. -/
def wrapper_type_set : List PyToken :=
  [.annotated, .required, .notRequired, .readOnly]

/-- Source: the `instantiable_type_mapping` dict, key-value pairs in source
order (`typing` aliases, `collections.abc` ABCs, then concrete builtins). -/
def instantiable_type_mapping : List (PyToken × PyToken) :=
  [ (.tAbstractSet, .set)
  , (.tDefaultDict, .defaultdict)
  , (.tDeque, .deque)
  , (.tDict, .dict)
  , (.tFrozenSet, .frozenset)
  , (.tList, .list)
  , (.tMapping, .dict)
  , (.tMutableMapping, .dict)
  , (.tMutableSequence, .list)
  , (.tMutableSet, .set)
  , (.tSequence, .list)
  , (.tSet, .set)
  , (.tTuple, .tuple)
  , (.abcMapping, .dict)
  , (.abcMutableMapping, .dict)
  , (.abcMutableSequence, .list)
  , (.abcMutableSet, .set)
  , (.abcSequence, .list)
  , (.abcSet, .set)
  , (.defaultdict, .defaultdict)
  , (.deque, .deque)
  , (.dict, .dict)
  , (.frozenset, .frozenset)
  , (.list, .list)
  , (.set, .set)
  , (.tuple, .tuple)
  ]

/-- `instantiable_type_mapping.get(key)` (no default): `None` when absent. -/
def containerLookup (t : PyToken) : Option PyToken :=
  (instantiable_type_mapping.find? (fun p => p.1 = t)).map Prod.snd

/-- The module-level registry state threaded through the functions: the
wrapper set and the container table. -/
structure Registry where
  wrapperSet : List PyToken
  containerTable : List (PyToken × PyToken)
deriving DecidableEq

/-- The load-time contents of the two registry tables. -/
def initRegistry : Registry :=
  { wrapperSet := wrapper_type_set, containerTable := instantiable_type_mapping }

/-- `table.get(origin, origin)` where `origin` is the (possibly `None`)
result of the recursive resolution: `None` is not a key, so it maps to the
default, which is `origin` itself; a present key maps to its value; an
absent non-`None` key maps to itself. -/
def itmGet (table : List (PyToken × PyToken)) (o : Option PyToken) : Option PyToken :=
  match o with
  | none => none
  | some t => some (((table.find? (fun p => p.1 = t)).map Prod.snd).getD t)

/-- Source `unwrap_annotation`, registry-threading form.  The body is

    origin = get_origin(annotation)
    wrappers = set()
    metadata = []
    while origin in wrapper_type_set:
        wrappers.add(origin)
        annotation, *meta = get_args(annotation)
        metadata.extend(meta)
        origin = get_origin(annotation)
        return annotation, tuple(metadata), wrappers

The `return` sits INSIDE the loop body, so at most one iteration ever runs:
with a wrapper origin the function returns after peeling a single layer
(`wrappers` is then the one-element set `[o]` and `metadata` is that layer's
extra arguments); when the guard fails at entry the function falls off the
end and returns Python `None`, modelled as `Option.none`.  Unpacking an
empty argument tuple raises `ValueError` (unreachable for descriptors
constructible in Python, where wrapper forms always carry arguments). -/
def unwrapAnnotationReg (reg : Registry) (a : Annot) :
    Registry × Except PyErr (Option (Annot × List Annot × List PyToken)) :=
  match get_origin a with
  | some o =>
    if reg.wrapperSet.contains o then
      match get_args a with
      | x :: meta => (reg, .ok (some (x, meta, [o])))
      | [] => (reg, .error .valueError)
    else (reg, .ok none)
  | none => (reg, .ok none)

/-- Source `get_origin_or_inner_type`, registry-threading form.  The body is

    origin = get_origin(annotation)
    if origin in wrapper_type_set:
        inner, _, _ = unwrap_annotation(annotation)
        origin = get_origin_or_inner_type(inner)
        return instantiable_type_mapping.get(origin, origin)

with no `else` and no trailing `return`: when the origin is not a wrapper
the function falls off the end and returns `None`.  Inside the wrapper
branch, `unwrap_annotation` is guaranteed (same guard, one loop iteration)
to return `(head of get_args, rest, {origin})`, which is inlined here so the
recursion is structural; `unwrapAnnotationReg_wrapper` below proves the
inlining agrees with `unwrapAnnotationReg`.  An empty argument tuple makes
`unwrap_annotation` raise `ValueError`, which propagates. -/
def getOriginOrInnerTypeReg (reg : Registry) (a : Annot) :
    Registry × Except PyErr (Option PyToken) :=
  match a with
  | .app o args =>
    if reg.wrapperSet.contains o then
      match args with
      | [] => (reg, .error .valueError)
      | inner :: _ =>
        match getOriginOrInnerTypeReg reg inner with
        | (reg2, .error e) => (reg2, .error e)
        | (reg2, .ok o2) => (reg2, .ok (itmGet reg2.containerTable o2))
    else (reg, .ok none)
  | _ => (reg, .ok none)

/-- The expression inside the `try:` of `is_non_string_sequence`:

    not issubclass(resolved, (str, bytes)) and issubclass(resolved, (Tuple,
    List, Set, FrozenSet, Deque, Sequence, list, tuple, deque, set,
    frozenset))

with Python short-circuit `and`: when the first test is true the result is
`False` without evaluating the second. -/
def subtypeTestBody (resolved : Annot) : Except PyErr Bool :=
  match issubclassTuple resolved [.str, .bytes] with
  | .error e => .error e
  | .ok true => .ok false
  | .ok false =>
    issubclassTuple resolved
      [.tTuple, .tList, .tSet, .tFrozenSet, .tDeque, .tSequence,
       .list, .tuple, .deque, .set, .frozenset]

/-- Source `is_non_string_sequence`, registry-threading form:

    origin = get_origin_or_inner_type(annotation)
    if not origin and not isclass(annotation):
        return False
    try:
        return not issubclass(origin or annotation, (str, bytes)) and ...
    except TypeError:
        return False

`origin or annotation` picks `origin` when it is truthy (any type object)
and the original annotation when `origin` is `None`.  Only `TypeError` is
caught, and the `get_origin_or_inner_type` call sits outside the `try`, so
any exception it raises propagates. -/
def isNonStringSequenceReg (reg : Registry) (a : Annot) :
    Registry × Except PyErr Bool :=
  match getOriginOrInnerTypeReg reg a with
  | (reg1, .error e) => (reg1, .error e)
  | (reg1, .ok origin) =>
    if origin.isNone && !(isclass a) then (reg1, .ok false)
    else
      match subtypeTestBody (match origin with | some t => .py t | none => a) with
      | .error .typeError => (reg1, .ok false)
      | .error e => (reg1, .error e)
      | .ok b => (reg1, .ok b)

/-- `unwrap_annotation` as called at module scope: the registry-threading
form applied to the load-time tables. -/
def unwrap_annotation (a : Annot) :
    Except PyErr (Option (Annot × List Annot × List PyToken)) :=
  (unwrapAnnotationReg initRegistry a).2

/-- `get_origin_or_inner_type` as called at module scope. -/
def get_origin_or_inner_type (a : Annot) : Except PyErr (Option PyToken) :=
  (getOriginOrInnerTypeReg initRegistry a).2

/-- `is_non_string_sequence` as called at module scope. -/
def is_non_string_sequence (a : Annot) : Except PyErr Bool :=
  (isNonStringSequenceReg initRegistry a).2

/-- Well-formedness of a descriptor as Python's typing machinery would
construct it: along the chain of first generic arguments, a wrapper form
always carries at least one argument (`Annotated` requires two, the marker
forms exactly one; a bare unsubscripted wrapper has origin `None`).  Only
this head chain matters, because the functions above only ever recurse into
the first argument. -/
def WF : Annot → Bool
  | .app o [] => !(wrapper_type_set.contains o)
  | .app o (x :: _) => !(wrapper_type_set.contains o) || WF x
  | _ => true

/-- The value `origin or annotation` that `is_non_string_sequence` feeds to
the subtype tests: the resolved origin when present, the annotation
otherwise (errors also fall back to the annotation; they never reach the
test in the source, where the call sits outside the `try`). -/
def resolvedValue (a : Annot) : Annot :=
  match get_origin_or_inner_type a with
  | .ok (some t) => .py t
  | _ => a

/-- Whether the resolved value is a subtype of `str` or `bytes` (false on
non-class values, which cannot pass the subtype test). -/
def strOrBytesCheck : Annot → Bool
  | .py t => issub t .str || issub t .bytes
  | _ => false

/-- Whether the resolved value is a subtype of one of the sequence, set,
frozen-set or queue shapes from the source's `issubclass` tuple (false on
non-class values). -/
def seqShapeCheck : Annot → Bool
  | .py t =>
    [PyToken.tTuple, .tList, .tSet, .tFrozenSet, .tDeque, .tSequence,
     .list, .tuple, .deque, .set, .frozenset].any (fun c => issub t c)
  | _ => false

example : unwrap_annotation (.py .int) = .ok none := rfl

example : unwrap_annotation (.app .annotated [.py .int, .lit "a", .lit "b"]) =
    .ok (some (.py .int, [.lit "a", .lit "b"], [.annotated])) := rfl

example : get_origin_or_inner_type (.app .list [.py .int]) = .ok none := rfl

example : get_origin_or_inner_type (.app .annotated [.app .list [.py .int], .lit "x"]) =
    .ok none := rfl

example : is_non_string_sequence (.py .list) = .ok true := rfl

example : is_non_string_sequence (.py .str) = .ok false := rfl

example : is_non_string_sequence (.py .dict) = .ok false := rfl

example : is_non_string_sequence (.app .list [.py .int]) = .ok false := rfl

/-- The inlined decomposition in `getOriginOrInnerTypeReg` agrees with
`unwrapAnnotationReg`: under the wrapper guard, `unwrap_annotation` returns
the head argument, the remaining arguments, and the singleton wrapper set. -/
theorem unwrapAnnotationReg_wrapper (reg : Registry) (o : PyToken) (inner : Annot)
    (rest : List Annot) (h : o ∈ reg.wrapperSet) :
    unwrapAnnotationReg reg (.app o (inner :: rest)) =
      (reg, .ok (some (inner, rest, [o]))) := by
  simp [unwrapAnnotationReg, get_origin, get_args, h]

/-- `unwrap_annotation` never touches the registry state. -/
theorem unwrapAnnotationReg_frame (reg : Registry) (a : Annot) :
    (unwrapAnnotationReg reg a).1 = reg := by
  unfold unwrapAnnotationReg
  cases hg : get_origin a with
  | none => rfl
  | some o =>
    by_cases hc : o ∈ reg.wrapperSet
    · cases get_args a <;> simp [hc]
    · simp [hc]

/-- `get_origin_or_inner_type` never touches the registry state. -/
theorem getOriginOrInnerTypeReg_frame (reg : Registry) :
    ∀ a : Annot, (getOriginOrInnerTypeReg reg a).1 = reg
  | .py _ => rfl
  | .lit _ => rfl
  | .app o [] => by
    unfold getOriginOrInnerTypeReg
    by_cases hc : o ∈ reg.wrapperSet <;> simp [hc]
  | .app o (inner :: rest) => by
    have ih := getOriginOrInnerTypeReg_frame reg inner
    by_cases hc : o ∈ reg.wrapperSet
    · rcases hg : getOriginOrInnerTypeReg reg inner with ⟨reg2, v⟩
      rw [hg] at ih
      simp only [Prod.fst] at ih
      unfold getOriginOrInnerTypeReg
      cases v <;> simp [hc, hg, ih]
    · unfold getOriginOrInnerTypeReg
      simp [hc]

/-- `is_non_string_sequence` never touches the registry state. -/
theorem isNonStringSequenceReg_frame (reg : Registry) (a : Annot) :
    (isNonStringSequenceReg reg a).1 = reg := by
  have hfr := getOriginOrInnerTypeReg_frame reg a
  unfold isNonStringSequenceReg
  split
  · rename_i reg1 e heq
    rw [heq] at hfr
    exact hfr
  · rename_i reg1 origin heq
    rw [heq] at hfr
    split
    · exact hfr
    · split
      · exact hfr
      · exact hfr
      · exact hfr

/-- Under the load-time registry, the resolution of any Python-constructible
descriptor is `None`: the non-wrapper branch of `get_origin_or_inner_type`
falls off the end of the function, the recursion always bottoms out there,
and `None` is not a key of `instantiable_type_mapping`. -/
theorem gooit_result_none :
    ∀ a : Annot, WF a = true → (getOriginOrInnerTypeReg initRegistry a).2 = Except.ok none
  | .py _, _ => rfl
  | .lit _, _ => rfl
  | .app o [], h => by
    have hn : o ∉ wrapper_type_set := by
      simpa [WF] using h
    simp [getOriginOrInnerTypeReg, initRegistry, hn]
  | .app o (inner :: rest), h => by
    by_cases hc : o ∈ wrapper_type_set
    · have hwf : WF inner = true := by
        simpa [WF, hc] using h
      have ih := gooit_result_none inner hwf
      have hc2 : o ∈ initRegistry.wrapperSet := hc
      rcases hg : getOriginOrInnerTypeReg initRegistry inner with ⟨reg2, v⟩
      rw [hg] at ih
      simp only [Prod.snd] at ih
      subst ih
      unfold getOriginOrInnerTypeReg
      simp [hc2, hg, itmGet]
    · have hc2 : o ∉ initRegistry.wrapperSet := hc
      simp [getOriginOrInnerTypeReg, hc2]

/-- Combined form: the whole result pair of `get_origin_or_inner_type` on a
well-formed descriptor is the untouched registry and `None`. -/
theorem gooit_pair (a : Annot) (h : WF a = true) :
    getOriginOrInnerTypeReg initRegistry a = (initRegistry, Except.ok none) := by
  have h1 := getOriginOrInnerTypeReg_frame initRegistry a
  have h2 := gooit_result_none a h
  rcases hg : getOriginOrInnerTypeReg initRegistry a with ⟨reg1, v⟩
  rw [hg] at h1 h2
  simp only at h1 h2
  rw [h1, h2]

/-- On a class object, `is_non_string_sequence` evaluates the two subtype
tests and combines them with short-circuit `and`. -/
theorem isnss_class_eval (t : PyToken) (h : isClassTok t = true) :
    is_non_string_sequence (.py t) =
      Except.ok (!(issub t .str || issub t .bytes) && seqShapeCheck (.py t)) := by
  have hg : getOriginOrInnerTypeReg initRegistry (Annot.py t) =
      (initRegistry, Except.ok none) := rfl
  unfold is_non_string_sequence isNonStringSequenceReg
  rw [hg]
  simp only [Option.isNone_none, isclass, h, Bool.not_true, Bool.and_false,
    Bool.false_eq_true, if_neg, not_false_eq_true]
  simp only [subtypeTestBody, issubclassTuple, h, if_pos, List.any_cons, List.any_nil,
    Bool.or_false]
  rcases hs : issub t .str || issub t .bytes with _ | _
  · simp [seqShapeCheck, h]
  · simp

/-- C1: the claim says that for a descriptor under two or more nested
wrapper layers, `unwrap_annotation` returns every wrapper kind encountered
and a non-wrapper base.  The code violates it: on
`ReadOnly[Annotated[int, "m"]]` the `return` inside the `while` loop fires
after the first layer, so the result records only `ReadOnly` and its base
`Annotated[int, "m"]` still has a recognized wrapper kind as its origin. -/
theorem unwrap_nested_wrapper_single_pass :
    unwrap_annotation (Annot.app .readOnly [Annot.app .annotated [Annot.py .int, Annot.lit "m"]]) =
      Except.ok (some (Annot.app .annotated [Annot.py .int, Annot.lit "m"],
        ([] : List Annot), [PyToken.readOnly]))
    ∧ get_origin (Annot.app .annotated [Annot.py .int, Annot.lit "m"]) = some PyToken.annotated
    ∧ PyToken.annotated ∈ wrapper_type_set :=
  ⟨rfl, rfl, by simp [wrapper_type_set]⟩

/-- C2: the claim says that on a descriptor whose origin is not a wrapper
kind, `unwrap_annotation` returns the identity result
`(descriptor, (), set())`.  The code violates it: the only `return` sits
inside the `while` loop, so for such inputs the function falls off the end
and returns Python `None` (here `Except.ok Option.none`), not a tuple. -/
theorem unwrap_plain_scalar_returns_py_none :
    unwrap_annotation (Annot.py .int) = Except.ok none
    ∧ unwrap_annotation (Annot.py .str) = Except.ok none
    ∧ unwrap_annotation (Annot.app .list [Annot.py .int]) = Except.ok none :=
  ⟨rfl, rfl, rfl⟩

/-- C3: the claim says `get_origin_or_inner_type` resolves
`list[int]` to the concrete `list` kind via the container table.  The code
violates it: the function has no `return` on the non-wrapper path, so it
returns `None` even though `list` is a registered key of the table. -/
theorem get_origin_or_inner_type_list_int_none :
    get_origin_or_inner_type (Annot.app .list [Annot.py .int]) = Except.ok none
    ∧ containerLookup .list = some .list
    ∧ get_origin_or_inner_type (Annot.app .annotated [Annot.app .list [Annot.py .int],
        Annot.lit "y"]) = Except.ok none :=
  ⟨rfl, rfl, rfl⟩

/-- C4: for every descriptor for which an effective origin or a plain class
can be determined (i.e. that passes the `not origin and not isclass` guard),
`is_non_string_sequence` is true iff the resolved value (`origin or
annotation`) is not a subtype of `str`/`bytes` and is a subtype of one of
the sequence, set, frozen-set or queue shapes; in particular mappings,
dictionaries and string/byte types always yield false. -/
theorem is_non_string_sequence_subclass_iff :
    (∀ a : Annot, WF a = true →
      ((∃ t, get_origin_or_inner_type a = Except.ok (some t)) ∨ isclass a = true) →
      (is_non_string_sequence a = Except.ok true ↔
        strOrBytesCheck (resolvedValue a) = false ∧ seqShapeCheck (resolvedValue a) = true))
    ∧ is_non_string_sequence (Annot.py .dict) = Except.ok false
    ∧ is_non_string_sequence (Annot.py .defaultdict) = Except.ok false
    ∧ is_non_string_sequence (Annot.py .str) = Except.ok false
    ∧ is_non_string_sequence (Annot.py .bytes) = Except.ok false := by
  refine ⟨?_, rfl, rfl, rfl, rfl⟩
  intro a hwf hres
  have hnone : get_origin_or_inner_type a = Except.ok none := gooit_result_none a hwf
  rcases hres with ⟨t, ht⟩ | hcls
  · rw [hnone] at ht
    exact absurd ht (by simp)
  · cases a with
    | lit s => simp [isclass] at hcls
    | app o args => simp [isclass] at hcls
    | py t =>
      have hct : isClassTok t = true := hcls
      have hrv : resolvedValue (Annot.py t) = Annot.py t := by
        unfold resolvedValue
        rw [hnone]
      rw [isnss_class_eval t hct, hrv]
      simp only [Except.ok.injEq, strOrBytesCheck, seqShapeCheck,
        Bool.and_eq_true, Bool.not_eq_true', Bool.or_eq_false_iff]

/-- Witness for C4 at the concrete class `list`: the hypotheses hold and the
equivalence yields `is_non_string_sequence(list) = True`. -/
theorem is_non_string_sequence_subclass_iff_witness :
    is_non_string_sequence (Annot.py .list) = Except.ok true :=
  (is_non_string_sequence_subclass_iff.1 (Annot.py .list) rfl (Or.inr rfl)).mpr ⟨rfl, rfl⟩

/-- C5: for every Python-constructible descriptor, `get_origin_or_inner_type`
returns `None`: its only `return` lies in the wrapper branch, the recursion
bottoms out in the non-wrapper branch, which falls off the end of the
function, and `None` is not a key of `instantiable_type_mapping`; so no
descriptor is ever resolved to a concrete container kind. -/
theorem get_origin_or_inner_type_always_none (a : Annot) (h : WF a = true) :
    get_origin_or_inner_type a = Except.ok none :=
  gooit_result_none a h

/-- Witness for C5 at `Annotated[list[int], "x"]`. -/
theorem get_origin_or_inner_type_always_none_witness :
    get_origin_or_inner_type (Annot.app .annotated [Annot.app .list [Annot.py .int],
      Annot.lit "x"]) = Except.ok none :=
  get_origin_or_inner_type_always_none _ rfl

/-- C6: the claim says every wrapper layer's extra arguments appear in the
returned metadata, outermost first.  The single-layer part holds (first
conjunct: `Annotated[int, "a", "b"]` yields metadata `("a", "b")` in order),
but the code violates the multi-layer part: on
`Required[Annotated[str, "inner"]]` the early `return` discards the inner
layer, so the metadata is empty and the argument `"inner"` is lost. -/
theorem unwrap_metadata_inner_layer_dropped :
    unwrap_annotation (Annot.app .annotated [Annot.py .int, Annot.lit "a", Annot.lit "b"]) =
      Except.ok (some (Annot.py .int, [Annot.lit "a", Annot.lit "b"], [PyToken.annotated]))
    ∧ unwrap_annotation (Annot.app .required [Annot.app .annotated [Annot.py .str,
        Annot.lit "inner"]]) =
      Except.ok (some (Annot.app .annotated [Annot.py .str, Annot.lit "inner"],
        ([] : List Annot), [PyToken.required])) :=
  ⟨rfl, rfl⟩

/-- C7: the claim says `unwrap_annotation` is idempotent on its returned
base.  The code violates it: on a plain type the result is Python `None`,
which has no base at all (first conjunct), and on
`NotRequired[Annotated[float, "z"]]` the first call returns the base
`Annotated[float, "z"]` (second conjunct) which the second call unwraps to
a different base `float` with non-empty metadata (third conjunct). -/
theorem unwrap_not_idempotent :
    unwrap_annotation (Annot.py .float) = Except.ok none
    ∧ unwrap_annotation (Annot.app .notRequired [Annot.app .annotated [Annot.py .float,
        Annot.lit "z"]]) =
      Except.ok (some (Annot.app .annotated [Annot.py .float, Annot.lit "z"],
        ([] : List Annot), [PyToken.notRequired]))
    ∧ unwrap_annotation (Annot.app .annotated [Annot.py .float, Annot.lit "z"]) =
      Except.ok (some (Annot.py .float, [Annot.lit "z"], [PyToken.annotated])) :=
  ⟨rfl, rfl, rfl⟩

/-- C8: `is_non_string_sequence` never raises on any Python-constructible
descriptor (first conjunct: the result is always a plain boolean), and
whenever the internal subtype test raises `TypeError` the exception is
caught and the function returns `False` (second conjunct). -/
theorem is_non_string_sequence_never_raises :
    (∀ a : Annot, WF a = true → ∃ b : Bool, is_non_string_sequence a = Except.ok b)
    ∧ (∀ a : Annot, WF a = true →
        subtypeTestBody (resolvedValue a) = Except.error PyErr.typeError →
        is_non_string_sequence a = Except.ok false) := by
  constructor
  · intro a hwf
    by_cases hcl : isclass a
    · cases a with
      | lit s => simp [isclass] at hcl
      | app o args => simp [isclass] at hcl
      | py t => exact ⟨_, isnss_class_eval t hcl⟩
    · have hcl2 : isclass a = false := by
        simpa using hcl
      have hp := gooit_pair a hwf
      refine ⟨false, ?_⟩
      unfold is_non_string_sequence isNonStringSequenceReg
      rw [hp]
      simp [hcl2]
  · intro a hwf herr
    have hp := gooit_pair a hwf
    have hrv : resolvedValue a = a := by
      unfold resolvedValue get_origin_or_inner_type
      rw [hp]
    rw [hrv] at herr
    unfold is_non_string_sequence isNonStringSequenceReg
    rw [hp]
    by_cases hcl : isclass a
    · simp [hcl, herr]
    · have hcl2 : isclass a = false := by
        simpa using hcl
      simp [hcl2]

/-- Witness for C8 at a metadata literal (not a class): the subtype test
raises `TypeError` there, and the function still returns `False`. -/
theorem is_non_string_sequence_never_raises_witness :
    is_non_string_sequence (Annot.lit "meta") = Except.ok false :=
  is_non_string_sequence_never_raises.2 (Annot.lit "meta") rfl rfl

/-- C9: the container table maps each abstract generic-alias constructor
(`Sequence`, `Mapping`, `Set`, `MutableSequence`, `MutableMapping`,
`MutableSet`, `FrozenSet`, `Deque`, `Dict`, `List`, `Tuple`) to a concrete
instantiable kind, maps each already-concrete constructor (`list`, `dict`,
`set`, `tuple`, `frozenset`, `deque`, `defaultdict`) to itself, and lookups
of absent tokens return `None` rather than raising. -/
theorem instantiable_type_mapping_contents :
    containerLookup .tSequence = some .list
    ∧ containerLookup .tMapping = some .dict
    ∧ containerLookup .tSet = some .set
    ∧ containerLookup .tMutableSequence = some .list
    ∧ containerLookup .tMutableMapping = some .dict
    ∧ containerLookup .tMutableSet = some .set
    ∧ containerLookup .tFrozenSet = some .frozenset
    ∧ containerLookup .tDeque = some .deque
    ∧ containerLookup .tDict = some .dict
    ∧ containerLookup .tList = some .list
    ∧ containerLookup .tTuple = some .tuple
    ∧ containerLookup .list = some .list
    ∧ containerLookup .dict = some .dict
    ∧ containerLookup .set = some .set
    ∧ containerLookup .tuple = some .tuple
    ∧ containerLookup .frozenset = some .frozenset
    ∧ containerLookup .deque = some .deque
    ∧ containerLookup .defaultdict = some .defaultdict
    ∧ containerLookup .int = none
    ∧ containerLookup .str = none
    ∧ containerLookup .annotated = none
    ∧ (∀ s : String, containerLookup (.custom s) = none) := by
  refine ⟨rfl, rfl, rfl, rfl, rfl, rfl, rfl, rfl, rfl, rfl, rfl, rfl, rfl, rfl, rfl, rfl,
    rfl, rfl, rfl, rfl, rfl, fun s => rfl⟩

/-- C10: every invocation of the three operations leaves the two registry
tables unchanged: after any call on any input, the wrapper set and the
container table still equal their load-time contents. -/
theorem registry_tables_frame (a : Annot) :
    (unwrapAnnotationReg initRegistry a).1.wrapperSet = wrapper_type_set
    ∧ (unwrapAnnotationReg initRegistry a).1.containerTable = instantiable_type_mapping
    ∧ (getOriginOrInnerTypeReg initRegistry a).1.wrapperSet = wrapper_type_set
    ∧ (getOriginOrInnerTypeReg initRegistry a).1.containerTable = instantiable_type_mapping
    ∧ (isNonStringSequenceReg initRegistry a).1.wrapperSet = wrapper_type_set
    ∧ (isNonStringSequenceReg initRegistry a).1.containerTable = instantiable_type_mapping := by
  have h1 := unwrapAnnotationReg_frame initRegistry a
  have h2 := getOriginOrInnerTypeReg_frame initRegistry a
  have h3 := isNonStringSequenceReg_frame initRegistry a
  rw [h1, h2, h3]
  exact ⟨rfl, rfl, rfl, rfl, rfl, rfl⟩

end OpenapiSpec
